import Mathlib

/-!
Shallow embedding of src/FilterPage.tsx: the cascading region filter's data
model, the query-parameter selection state, the derivation functions
(candidate lists and labels), the selection-change handlers, the data
loader's failure handling, and the timed loading flag. Definitions are
translated from the TypeScript source; the JS runtime primitives the source
leans on (`Number` coercion of query strings, `Number(null) = 0`, strict
equality against `NaN`, truthiness of strings, `setSearchParams` replacing
the query string, `String(id)` for option values) are modelled explicitly
and documented at each definition.
-/

namespace FilterPage

/-- A top-level region: `type Province = Region` with `id` and `name`. -/
structure Province where
  id : Int
  name : String
  deriving DecidableEq

/-- A mid-level region: `type Regency = Region & { province_id: number }`. -/
structure Regency where
  id : Int
  name : String
  province_id : Int
  deriving DecidableEq

/-- A bottom-level region: `type District = Region & { regency_id: number }`. -/
structure District where
  id : Int
  name : String
  regency_id : Int
  deriving DecidableEq

/-- `type RegionData`: the three entity collections of the dataset. -/
structure RegionData where
  provinces : List Province
  regencies : List Regency
  districts : List District
  deriving DecidableEq

/-- The URL query state read by `useSearchParams`: the three optional string
keys `province`, `regency`, `district`. `searchParams.get(key)` is `none`
when the key is missing. -/
structure Params where
  province : Option String
  regency : Option String
  district : Option String
  deriving DecidableEq

/-- A decoded Selection State: up to three optional integer identifiers. -/
structure SelState where
  topId : Option Int
  midId : Option Int
  bottomId : Option Int
  deriving DecidableEq

/-- Accumulating decimal parse of a character list: fails on the first
non-digit character. -/
def parseDigitsAux (acc : Nat) : List Char → Option Nat
  | [] => some acc
  | c :: cs => if c.isDigit then parseDigitsAux (10 * acc + (c.toNat - 48)) cs else none

/-- Decimal parse of a non-empty all-digit character list; `none` otherwise. -/
def parseDigits (l : List Char) : Option Nat :=
  if l = [] then none else parseDigitsAux 0 l

/-- Model of the JS `Number` coercion on the character list of a string,
restricted to the decimal integer forms the select controls produce: the
empty string is `0`, an optional leading minus sign followed by decimal
digits is the signed value, and anything else (whitespace, hex, exponent or
fractional forms) is modelled as `none`, standing for `NaN` or a non-integer
number, neither of which can be strictly equal to an integer entity id. -/
def jsNumberList (l : List Char) : Option Int :=
  match l with
  | [] => some 0
  | c :: cs =>
      if c = '-' then (parseDigits cs).map (fun n => -(Int.ofNat n))
      else (parseDigits (c :: cs)).map (fun n => Int.ofNat n)

/-- JS `Number` on a string, via its character list. -/
def jsNumber (s : String) : Option Int :=
  jsNumberList s.data

/-- JS strict equality (`===`) between a number-typed entity id and a
modelled `Number` result: `NaN` (modelled as `none`) is equal to nothing. -/
def jsEq (n : Int) (v : Option Int) : Bool :=
  match v with
  | some m => n == m
  | none => false

/-- `Number(searchParams.get(key))` with no falsy guard, as the three label
lookups apply it: JS has `Number(null) = 0`, and `jsNumberList` already
sends the empty string to `0`. -/
def numParam (o : Option String) : Option Int :=
  match o with
  | none => some 0
  | some s => jsNumber s

/-- The decoded selection at one level, as the guarded reads treat the raw
parameter: a missing key or the empty string is no selection (the source
guards with JS truthiness, `!selectedProvId`), and a string that does not
parse as a number can match no entity, so it decodes to absent. -/
def decodeSel (o : Option String) : Option Int :=
  match o with
  | none => none
  | some s => if s = "" then none else jsNumber s

/-- The possible outcomes of `regionLoader`'s fetch: the response parses to a
dataset, or the response is not ok (`!response.ok`), or the fetch itself
rejects, or `response.json()` rejects. -/
inductive FetchOutcome where
  | success (d : RegionData)
  | httpNotOk
  | networkError
  | parseError
  deriving DecidableEq

/-- `regionLoader`: returns the parsed dataset on success and
`{ provinces: [], regencies: [], districts: [] }` on any failure; the
`try`/`catch` around the whole body swallows every error (non-ok status is
thrown into the same `catch`), so the loader always resolves with a
`RegionData` value and never propagates an exception. -/
def regionLoader : FetchOutcome → RegionData
  | .success d => d
  | .httpNotOk => ⟨[], [], []⟩
  | .networkError => ⟨[], [], []⟩
  | .parseError => ⟨[], [], []⟩

/-- Whether a fetch outcome is one of the three failure cases. -/
def isFailure : FetchOutcome → Bool
  | .success _ => false
  | _ => true

/-- `availableRegencies`: `[]` when `selectedProvId` is falsy (missing key or
empty string), else `data.regencies.filter((r) => r.province_id ===
Number(selectedProvId))`. -/
def availableRegencies (data : RegionData) (selectedProvId : Option String) : List Regency :=
  match selectedProvId with
  | none => []
  | some s =>
      if s = "" then []
      else data.regencies.filter (fun r => jsEq r.province_id (jsNumber s))

/-- `availableDistricts`: `[]` when `selectedRegId` is falsy, else
`data.districts.filter((d) => d.regency_id === Number(selectedRegId))`. -/
def availableDistricts (data : RegionData) (selectedRegId : Option String) : List District :=
  match selectedRegId with
  | none => []
  | some s =>
      if s = "" then []
      else data.districts.filter (fun d => jsEq d.regency_id (jsNumber s))

/-- `provName`: `data.provinces.find((p) => p.id ===
Number(selectedProvId))?.name`, with no falsy guard on the raw parameter. -/
def provName (data : RegionData) (selectedProvId : Option String) : Option String :=
  (data.provinces.find? (fun p => jsEq p.id (numParam selectedProvId))).map (fun p => p.name)

/-- `regName`: `data.regencies.find((r) => r.id ===
Number(selectedRegId))?.name`. -/
def regName (data : RegionData) (selectedRegId : Option String) : Option String :=
  (data.regencies.find? (fun r => jsEq r.id (numParam selectedRegId))).map (fun r => r.name)

/-- `distName`: `data.districts.find((d) => d.id ===
Number(selectedDistId))?.name`. -/
def distName (data : RegionData) (selectedDistId : Option String) : Option String :=
  (data.districts.find? (fun d => jsEq d.id (numParam selectedDistId))).map (fun d => d.name)

/-- `handleProvChange`: a truthy (non-empty) `val` runs
`setSearchParams({ province: val })`, which builds the next query string from
that object alone, so the `regency` and `district` keys are dropped; a falsy
(empty) `val` runs `setSearchParams({})`, the empty query string. Either way
the previous params are not consulted. -/
def handleProvChange (val : String) (_searchParams : Params) : Params :=
  if val = "" then ⟨none, none, none⟩ else ⟨some val, none, none⟩

/-- `handleRegChange`: copies the current params
(`new URLSearchParams(searchParams)`); a truthy `val` sets `regency` and
deletes `district`; a falsy `val` deletes both `regency` and `district`. The
`province` key is untouched in both branches. -/
def handleRegChange (val : String) (searchParams : Params) : Params :=
  if val = "" then { searchParams with regency := none, district := none }
  else { searchParams with regency := some val, district := none }

/-- `handleDistChange`: copies the current params; a truthy `val` sets
`district`, a falsy `val` deletes it; `province` and `regency` untouched. -/
def handleDistChange (val : String) (searchParams : Params) : Params :=
  if val = "" then { searchParams with district := none }
  else { searchParams with district := some val }

/-- `handleReset`: `setSearchParams({})`, the empty query string. -/
def handleReset (_searchParams : Params) : Params :=
  ⟨none, none, none⟩

/-- The state of one `useTimedLoading` flag: the `loading` boolean and the
fire time of the pending `setTimeout`, when one is armed. -/
structure TimerState where
  loading : Bool
  deadline : Option Nat
  deriving DecidableEq

/-- `start()` of `useTimedLoading`, called at time `t`: it runs
`setLoading(true)`. The arming effect has dependency list `[loading, delay]`
and only re-runs when `loading` actually changes; with the flag already
`true`, `setLoading(true)` leaves the state identical (React bails out and
the dependencies are unchanged either way), so the pending timeout is left
untouched. From `false`, the effect re-runs and arms a timeout firing at
`t + delay`. -/
def stepStart (delay : Nat) (s : TimerState) (t : Nat) : TimerState :=
  if s.loading then s else ⟨true, some (t + delay)⟩

/-- The armed timeout firing at its scheduled time `t`: the callback runs
`setLoading(false)`; the effect's cleanup then clears the already-fired
timeout and the re-run effect returns early on `!loading`, so no timer
remains armed. -/
def stepFire (s : TimerState) (t : Nat) : TimerState :=
  match s.deadline with
  | some d => if d = t then ⟨false, none⟩ else s
  | none => s

/-- The hook's default delay: `useTimedLoading(delay = 500)`. -/
def defaultDelay : Nat := 500

/-- The district label as a function of the whole query state: the source
reads only `searchParams.get('district')` for it. -/
def distNameOf (data : RegionData) (p : Params) : Option String :=
  distName data p.district

/-- The district candidate list as a function of the whole query state: the
source reads only `searchParams.get('regency')` for it. -/
def availableDistrictsOf (data : RegionData) (p : Params) : List District :=
  availableDistricts data p.regency

/-- The decimal digit characters of a natural number, most significant
first, as JS stringifies a non-negative integer. -/
def natToDigits (n : Nat) : List Char :=
  if h : n < 10 then [Char.ofNat (48 + n)]
  else
    have : n / 10 < n := Nat.div_lt_self (by omega) (by omega)
    natToDigits (n / 10) ++ [Char.ofNat (48 + n % 10)]

/-- JS `String(id)` for an integer id, as the option elements' `value`
attribute serializes the ids written into the query string: canonical
decimal digits, with a leading minus sign when negative. -/
def intToString (i : Int) : String :=
  if i < 0 then ⟨'-' :: natToDigits i.natAbs⟩ else ⟨natToDigits i.toNat⟩

/-- Serialization of a Selection State into the query map: exactly the
defined identifiers are written, each as its decimal string. -/
def encodeSel (sel : SelState) : Params :=
  ⟨sel.topId.map intToString, sel.midId.map intToString, sel.bottomId.map intToString⟩

/-- The decoded Selection State of a query map, level by level. -/
def decodeParams (p : Params) : SelState :=
  ⟨decodeSel p.province, decodeSel p.regency, decodeSel p.district⟩

/-- The sample dataset of the spec's Scenario 1: one entity per level, the
district a child of the regency, the regency a child of the province. -/
def sampleData : RegionData :=
  ⟨[⟨1, "A"⟩], [⟨10, "B", 1⟩], [⟨100, "C", 10⟩]⟩

/-- C1 counterexample: starting from the fully selected state, a non-empty
top-level selection `handleProvChange "1"` drops the previously encoded
`regency` and `district` keys instead of leaving them unchanged. -/
theorem handleProvChange_drops_lower_cex :
    handleProvChange "1" ⟨some "2", some "10", some "100"⟩ = ⟨some "1", none, none⟩ ∧
    (handleProvChange "1" ⟨some "2", some "10", some "100"⟩).regency.isSome = false ∧
    (handleProvChange "1" ⟨some "2", some "10", some "100"⟩).district.isSome = false := by
  decide

/-- C1 (amended): `handleProvChange` never consults the previous state: a
non-empty id yields the state holding only `province = id` (the mid and
bottom identifiers are removed), and an empty id yields the empty state. -/
theorem handleProvChange_replaces_state (s : Params) (val : String) :
    (handleProvChange val s).regency = none ∧
    (handleProvChange val s).district = none ∧
    (val = "" → (handleProvChange val s).province = none) ∧
    (¬ val = "" → (handleProvChange val s).province = some val) := by
  by_cases h : val = "" <;> simp [handleProvChange, h]

/-- C2: `handleRegChange` with an empty value removes both `regency` and
`district` and preserves `province`; with a non-empty id it sets `regency`
to that id, removes `district`, and preserves `province`. -/
theorem handleRegChange_spec (s : Params) (val : String) :
    (val = "" → handleRegChange val s = ⟨s.province, none, none⟩) ∧
    (¬ val = "" → handleRegChange val s = ⟨s.province, some val, none⟩) := by
  obtain ⟨a, b, c⟩ := s
  by_cases h : val = "" <;> simp [handleRegChange, h]

/-- C3 counterexample: with the bottom level set and the mid level changed to
a different non-empty id ("10" to "11"), the encoded `district` key is
removed, not left present. -/
theorem handleRegChange_clears_district_cex :
    handleRegChange "11" ⟨some "1", some "10", some "100"⟩ = ⟨some "1", some "11", none⟩ ∧
    (handleRegChange "11" ⟨some "1", some "10", some "100"⟩).district.isSome = false ∧
    (("11" : String) == "10") = false := by
  decide

/-- C3 (amended): every call of `handleRegChange` removes the encoded
`district` key, whether the mid value is cleared to empty or changed to any
non-empty id; the top-level key is preserved in both cases. -/
theorem handleRegChange_always_clears_district (s : Params) (val : String) :
    (handleRegChange val s).district = none ∧
    (handleRegChange val s).province = s.province := by
  by_cases h : val = "" <;> simp [handleRegChange, h]

/-- C6: an empty top-level selection and the reset action both produce the
empty selection state: all three identifiers are removed. -/
theorem clear_and_reset_empty (s : Params) :
    handleProvChange "" s = ⟨none, none, none⟩ ∧
    handleReset s = ⟨none, none, none⟩ :=
  ⟨rfl, rfl⟩

/-- The digit character of `d < 10` is a digit and decodes back to `d`. -/
theorem charDigit (d : Nat) (h : d < 10) :
    (Char.ofNat (48 + d)).isDigit = true ∧ (Char.ofNat (48 + d)).toNat - 48 = d := by
  interval_cases d <;> exact ⟨by decide, by decide⟩

/-- `parseDigitsAux` on a single digit character. -/
theorem parseDigitsAux_single (a : Nat) (c : Char) (h : c.isDigit = true) :
    parseDigitsAux a [c] = some (10 * a + (c.toNat - 48)) := by
  simp [parseDigitsAux, h]

/-- `parseDigitsAux` consumes an appended list left to right. -/
theorem parseDigitsAux_append (l1 l2 : List Char) (acc : Nat) :
    parseDigitsAux acc (l1 ++ l2) =
      (parseDigitsAux acc l1).bind (fun a => parseDigitsAux a l2) := by
  induction l1 generalizing acc with
  | nil => rfl
  | cons c cs ih =>
      simp only [List.cons_append, parseDigitsAux]
      by_cases hc : c.isDigit <;> simp [hc, ih]

/-- Parsing the digit string of `n` from accumulator `acc` yields `acc`
shifted past those digits plus `n`. -/
theorem parseDigitsAux_natToDigits (n : Nat) : ∀ acc : Nat,
    parseDigitsAux acc (natToDigits n) =
      some (acc * 10 ^ (natToDigits n).length + n) := by
  induction n using Nat.strong_induction_on with
  | _ n ih =>
    intro acc
    by_cases h : n < 10
    · rw [natToDigits, dif_pos h]
      simp only [parseDigitsAux, (charDigit n h).1, if_true, (charDigit n h).2,
        List.length_singleton, pow_one]
      congr 1
      omega
    · rw [natToDigits, dif_neg h, parseDigitsAux_append,
        ih (n / 10) (Nat.div_lt_self (by omega) (by omega))]
      rw [Option.some_bind,
        parseDigitsAux_single _ _ (charDigit (n % 10) (Nat.mod_lt n (by omega))).1,
        (charDigit (n % 10) (Nat.mod_lt n (by omega))).2,
        List.length_append, List.length_singleton]
      congr 1
      rw [pow_succ, ← mul_assoc]
      generalize acc * 10 ^ (natToDigits (n / 10)).length = A
      omega

/-- The digit string of `n` is never empty. -/
theorem natToDigits_ne_nil (n : Nat) : natToDigits n ≠ [] := by
  rw [natToDigits]
  by_cases h : n < 10 <;> simp [h]

/-- Every character of the digit string of `n` is a digit. -/
theorem natToDigits_isDigit (n : Nat) : ∀ c ∈ natToDigits n, c.isDigit = true := by
  induction n using Nat.strong_induction_on with
  | _ n ih =>
    intro c hc
    by_cases h : n < 10
    · rw [natToDigits, dif_pos h] at hc
      simp only [List.mem_singleton] at hc
      exact hc ▸ (charDigit n h).1
    · rw [natToDigits, dif_neg h] at hc
      rcases List.mem_append.mp hc with h1 | h2
      · exact ih (n / 10) (Nat.div_lt_self (by omega) (by omega)) c h1
      · simp only [List.mem_singleton] at h2
        exact h2 ▸ (charDigit (n % 10) (Nat.mod_lt n (by omega))).1

/-- `parseDigits` inverts `natToDigits`. -/
theorem parseDigits_natToDigits (n : Nat) : parseDigits (natToDigits n) = some n := by
  rw [parseDigits, if_neg (natToDigits_ne_nil n), parseDigitsAux_natToDigits]
  simp

/-- The modelled JS `Number` inverts the modelled JS `String` on every
integer. -/
theorem jsNumber_intToString (i : Int) : jsNumber (intToString i) = some i := by
  rw [intToString]
  by_cases h : i < 0
  · rw [if_pos h]
    show jsNumberList ('-' :: natToDigits i.natAbs) = some i
    simp only [jsNumberList, if_pos rfl, if_true, parseDigits_natToDigits, Option.map_some']
    simp only [Option.map_some', Int.ofNat_eq_coe]
    congr 1
    rw [Int.ofNat_natAbs_of_nonpos (le_of_lt h), neg_neg]
  · rw [if_neg h]
    obtain ⟨c, cs, hl⟩ : ∃ c cs, natToDigits i.toNat = c :: cs := by
      cases hh : natToDigits i.toNat with
      | nil => exact absurd hh (natToDigits_ne_nil _)
      | cons c cs => exact ⟨c, cs, rfl⟩
    have hdig : c.isDigit = true :=
      natToDigits_isDigit i.toNat c (by rw [hl]; exact List.mem_cons_self c cs)
    have hc : ¬ c = '-' := by
      intro e
      rw [e] at hdig
      simp at hdig
    show jsNumberList (natToDigits i.toNat) = some i
    rw [hl]
    simp only [jsNumberList, if_neg hc, ← hl, parseDigits_natToDigits, Option.map_some']
    simp only [Option.map_some', Int.ofNat_eq_coe]
    congr 1
    exact Int.toNat_of_nonneg (not_lt.mp h)

/-- The modelled JS `String` of an integer is never the empty string. -/
theorem intToString_ne_empty (i : Int) : intToString i ≠ "" := by
  rw [intToString]
  by_cases h : i < 0
  · rw [if_pos h]
    intro e
    have := congrArg String.data e
    simp at this
  · rw [if_neg h]
    intro e
    have := congrArg String.data e
    simp only [String.data] at this
    exact natToDigits_ne_nil i.toNat this

/-- Decoding a serialized identifier recovers it. -/
theorem decodeSel_intToString (i : Int) :
    decodeSel (some (intToString i)) = some i := by
  simp only [decodeSel, if_neg (intToString_ne_empty i)]
  exact jsNumber_intToString i

/-- Level-wise: decoding the serialization of an optional identifier is the
identity. -/
theorem decodeSel_map_intToString (o : Option Int) :
    decodeSel (o.map intToString) = o := by
  cases o with
  | none => rfl
  | some i => exact decodeSel_intToString i

/-- A serialized identifier slot is defined exactly when the identifier is. -/
theorem encode_isSome (o : Option Int) : (o.map intToString).isSome = o.isSome := by
  cases o <;> rfl

/-- A serialized identifier slot never holds the empty string. -/
theorem encode_all_ne_empty (o : Option Int) :
    ((o.map intToString).all fun v => v != "") = true := by
  cases o with
  | none => rfl
  | some i =>
      simp only [Option.map_some', Option.all_some, bne_iff_ne, ne_eq]
      exact intToString_ne_empty i

/-- C7: serializing a Selection State writes exactly the defined identifiers
(the key is present iff the identifier is, and never as an empty string), and
decoding the result recovers the same Selection State; a value the number
parse rejects decodes to absent. -/
theorem roundtrip_spec (sel : SelState) :
    decodeParams (encodeSel sel) = sel ∧
    ((encodeSel sel).province.isSome = sel.topId.isSome ∧
     (encodeSel sel).regency.isSome = sel.midId.isSome ∧
     (encodeSel sel).district.isSome = sel.bottomId.isSome) ∧
    (((encodeSel sel).province.all fun v => v != "") = true ∧
     ((encodeSel sel).regency.all fun v => v != "") = true ∧
     ((encodeSel sel).district.all fun v => v != "") = true) ∧
    (∀ s : String, jsNumber s = none → decodeSel (some s) = none) := by
  obtain ⟨a, b, c⟩ := sel
  refine ⟨?_, ⟨?_, ?_, ?_⟩, ⟨?_, ?_, ?_⟩, ?_⟩
  · simp only [encodeSel, decodeParams, decodeSel_map_intToString]
  · exact encode_isSome a
  · exact encode_isSome b
  · exact encode_isSome c
  · exact encode_all_ne_empty a
  · exact encode_all_ne_empty b
  · exact encode_all_ne_empty c
  · intro s hs
    simp only [decodeSel]
    by_cases h : s = "" <;> simp [h, hs]

/-- C4: the mid-level candidate list is exactly the regencies whose
`province_id` equals the decoded top-level selection, in dataset order, and
is empty whenever the decoded top-level selection is absent. -/
theorem availableRegencies_spec (data : RegionData) (sel : Option String) :
    availableRegencies data sel =
      match decodeSel sel with
      | none => []
      | some t => data.regencies.filter (fun r => r.province_id == t) := by
  cases sel with
  | none => rfl
  | some s =>
      by_cases h : s = ""
      · simp [availableRegencies, decodeSel, h]
      · simp only [availableRegencies, decodeSel, if_neg h]
        cases hj : jsNumber s with
        | none =>
            simp only [List.filter_eq_nil_iff]
            intro r _
            simp [jsEq]
        | some t => rfl

/-- The same characterization for the bottom-level candidate list (used by
the independence property): exactly the districts whose `regency_id` equals
the decoded mid-level selection, empty when it is absent. -/
theorem availableDistricts_eq (data : RegionData) (sel : Option String) :
    availableDistricts data sel =
      match decodeSel sel with
      | none => []
      | some t => data.districts.filter (fun d => d.regency_id == t) := by
  cases sel with
  | none => rfl
  | some s =>
      by_cases h : s = ""
      · simp [availableDistricts, decodeSel, h]
      · simp only [availableDistricts, decodeSel, if_neg h]
        cases hj : jsNumber s with
        | none =>
            simp only [List.filter_eq_nil_iff]
            intro d _
            simp [jsEq]
        | some t => rfl

/-- `find?` returns the unique element satisfying the predicate. -/
theorem find?_eq_some_of_unique {α : Type} (l : List α) (f : α → Bool) (a : α)
    (ha : a ∈ l) (hfa : f a = true) (hu : ∀ b ∈ l, f b = true → b = a) :
    l.find? f = some a := by
  induction l with
  | nil => cases ha
  | cons x xs ih =>
      by_cases hx : f x = true
      · rw [List.find?_cons_of_pos _ hx, hu x (List.mem_cons_self x xs) hx]
      · rw [List.find?_cons_of_neg _ hx]
        rcases List.mem_cons.mp ha with rfl | hmem
        · exact absurd hfa hx
        · exact ih hmem (fun b hb hfb => hu b (List.mem_cons_of_mem x hb) hfb)

/-- `jsEq` against a defined number is equality of the two integers. -/
theorem jsEq_some (n t : Int) : jsEq n (some t) = (n == t) := rfl

/-- C5 counterexample: on a dataset holding a province with id `0` and an
absent top-level selection, the label lookup returns that province's name
rather than no label, because the lookup coerces the missing parameter with
`Number(null) = 0`. -/
theorem provName_id_zero_cex :
    provName ⟨[⟨0, "Z"⟩], [], []⟩ none = some "Z" ∧
    numParam (none : Option String) = some 0 ∧
    (provName ⟨[⟨0, "Z"⟩], [], []⟩ none).isSome = true := by
  decide

/-- C5 (amended): for each of the three levels, the label lookup coerces the
raw parameter with JS `Number` (so an absent or empty parameter is looked up
as the id `0`); on the coerced value `v` it returns the name of the unique
entity at that level with id `v` when exactly one exists, and no label when
no entity at that level has id `v`; a parameter whose coercion fails
(`NaN`) yields no label. -/
theorem labelFor_amended_spec (data : RegionData) (sel : Option String) :
    (numParam (none : Option String) = some 0 ∧ numParam (some "") = some 0) ∧
    (numParam sel = none →
      provName data sel = none ∧ regName data sel = none ∧ distName data sel = none) ∧
    (∀ v : Int, numParam sel = some v →
      ((∀ p ∈ data.provinces, (p.id == v) = false) → provName data sel = none) ∧
      (∀ p : Province, p ∈ data.provinces → p.id = v →
        (∀ q ∈ data.provinces, q.id = v → q = p) → provName data sel = some p.name) ∧
      ((∀ r ∈ data.regencies, (r.id == v) = false) → regName data sel = none) ∧
      (∀ r : Regency, r ∈ data.regencies → r.id = v →
        (∀ q ∈ data.regencies, q.id = v → q = r) → regName data sel = some r.name) ∧
      ((∀ d ∈ data.districts, (d.id == v) = false) → distName data sel = none) ∧
      (∀ d : District, d ∈ data.districts → d.id = v →
        (∀ q ∈ data.districts, q.id = v → q = d) → distName data sel = some d.name)) := by
  refine ⟨⟨rfl, rfl⟩, ?_, ?_⟩
  · intro hnan
    refine ⟨?_, ?_, ?_⟩ <;>
      · simp only [provName, regName, distName, hnan]
        rw [List.find?_eq_none.mpr]
        · rfl
        · intro x _
          simp [jsEq]
  · intro v hv
    refine ⟨?_, ?_, ?_, ?_, ?_, ?_⟩
    · intro hnone
      simp only [provName, hv]
      rw [List.find?_eq_none.mpr]
      · rfl
      · intro p hp
        simp [jsEq_some, hnone p hp]
    · intro p hp hid hu
      simp only [provName, hv]
      rw [find?_eq_some_of_unique _ _ p hp (by simp [jsEq_some, hid])
        (fun b hb hfb => hu b hb (by simpa [jsEq_some] using hfb))]
      rfl
    · intro hnone
      simp only [regName, hv]
      rw [List.find?_eq_none.mpr]
      · rfl
      · intro r hr
        simp [jsEq_some, hnone r hr]
    · intro r hr hid hu
      simp only [regName, hv]
      rw [find?_eq_some_of_unique _ _ r hr (by simp [jsEq_some, hid])
        (fun b hb hfb => hu b hb (by simpa [jsEq_some] using hfb))]
      rfl
    · intro hnone
      simp only [distName, hv]
      rw [List.find?_eq_none.mpr]
      · rfl
      · intro d hd
        simp [jsEq_some, hnone d hd]
    · intro d hd hid hu
      simp only [distName, hv]
      rw [find?_eq_some_of_unique _ _ d hd (by simp [jsEq_some, hid])
        (fun b hb hfb => hu b hb (by simpa [jsEq_some] using hfb))]
      rfl

/-- On the empty dataset every mid-level candidate list is empty. -/
theorem availableRegencies_empty (sel : Option String) :
    availableRegencies ⟨[], [], []⟩ sel = [] := by
  cases sel with
  | none => rfl
  | some s => by_cases h : s = "" <;> simp [availableRegencies, h]

/-- On the empty dataset every bottom-level candidate list is empty. -/
theorem availableDistricts_empty (sel : Option String) :
    availableDistricts ⟨[], [], []⟩ sel = [] := by
  cases sel with
  | none => rfl
  | some s => by_cases h : s = "" <;> simp [availableDistricts, h]

/-- C8: every failed fetch outcome (non-ok response, network rejection or
parse rejection) makes `regionLoader` return the empty dataset as an
ordinary value, with no error propagated (the loader's type is total on
every outcome); on that dataset every candidate list is empty and every
label lookup is undefined, for every selection string. -/
theorem regionLoader_failure_spec (o : FetchOutcome) (h : isFailure o = true) :
    regionLoader o = ⟨[], [], []⟩ ∧
    (∀ sel : Option String, availableRegencies (regionLoader o) sel = []) ∧
    (∀ sel : Option String, availableDistricts (regionLoader o) sel = []) ∧
    (∀ sel : Option String,
      provName (regionLoader o) sel = none ∧
      regName (regionLoader o) sel = none ∧
      distName (regionLoader o) sel = none) := by
  have he : regionLoader o = ⟨[], [], []⟩ := by
    cases o with
    | success d => simp [isFailure] at h
    | httpNotOk => rfl
    | networkError => rfl
    | parseError => rfl
  rw [he]
  exact ⟨rfl, availableRegencies_empty, availableDistricts_empty,
    fun sel => ⟨rfl, rfl, rfl⟩⟩

/-- C8 witness: the network-failure outcome, with the candidate list and the
label evaluated at the selection id `1` of the spec's Scenario 3. -/
theorem regionLoader_failure_spec_witness :
    isFailure FetchOutcome.networkError = true ∧
    regionLoader FetchOutcome.networkError = ⟨[], [], []⟩ ∧
    availableRegencies (regionLoader FetchOutcome.networkError) (some "1") = [] ∧
    provName (regionLoader FetchOutcome.networkError) (some "1") = none :=
  ⟨rfl, (regionLoader_failure_spec FetchOutcome.networkError rfl).1,
    (regionLoader_failure_spec FetchOutcome.networkError rfl).2.1 (some "1"),
    ((regionLoader_failure_spec FetchOutcome.networkError rfl).2.2.2 (some "1")).1⟩

/-- C9 counterexample: triggering at time 0 and again at time 100 (inside the
500ms window) leaves the timeout armed for time 500, not 600, and firing it
at 500 sends the flag back to Idle although only 400ms have passed since the
most recent trigger. -/
theorem timer_no_restart_cex :
    stepStart defaultDelay (stepStart defaultDelay ⟨false, none⟩ 0) 100 = ⟨true, some 500⟩ ∧
    (stepFire (stepStart defaultDelay (stepStart defaultDelay ⟨false, none⟩ 0) 100) 500).loading
      = false ∧
    500 < 100 + defaultDelay := by
  decide

/-- C9 (amended): a trigger while the flag is already Active leaves the
state, including the pending timeout, completely unchanged (the arming
effect's dependencies do not change), so the flag returns to Idle a fixed
delay after the trigger that entered Active, not after the most recent
trigger; from Idle a trigger at time `t` arms the timeout for `t + delay`. -/
theorem stepStart_active_noop (delay : Nat) (s : TimerState) (t : Nat)
    (h : s.loading = true) :
    stepStart delay s t = s ∧
    (∀ u : Nat, stepStart delay ⟨false, none⟩ u = ⟨true, some (u + delay)⟩) := by
  constructor
  · simp [stepStart, h]
  · intro u
    rfl

/-- C9 witness: the already-Active state armed for time 500, re-triggered at
time 100, is returned unchanged. -/
theorem stepStart_active_noop_witness :
    stepStart defaultDelay ⟨true, some 500⟩ 100 = ⟨true, some 500⟩ :=
  (stepStart_active_noop defaultDelay ⟨true, some 500⟩ 100 rfl).1

/-- C10: the bottom-level label depends only on the coerced `district`
parameter and the bottom-level candidate list only on the decoded `regency`
parameter: two query states agreeing there produce identical results even if
their other levels differ or are wholly absent, so no cross-level
consistency of the decoded state is enforced. -/
theorem derivation_independence (data : RegionData) (p q : Params) :
    (numParam p.district = numParam q.district → distNameOf data p = distNameOf data q) ∧
    (decodeSel p.regency = decodeSel q.regency →
      availableDistrictsOf data p = availableDistrictsOf data q) := by
  constructor
  · intro h
    simp only [distNameOf, distName, h]
  · intro h
    simp only [availableDistrictsOf, availableDistricts_eq, h]

/-- C10 witness: on the Scenario 1 dataset, the state holding only
`district=100` — no mid or top selection at all — produces the same label as
the fully consistent state, namely district 100's name. -/
theorem derivation_independence_witness :
    distNameOf sampleData ⟨none, none, some "100"⟩ =
      distNameOf sampleData ⟨some "1", some "10", some "100"⟩ ∧
    distNameOf sampleData ⟨none, none, some "100"⟩ = some "C" :=
  ⟨(derivation_independence sampleData ⟨none, none, some "100"⟩
      ⟨some "1", some "10", some "100"⟩).1 rfl,
    by decide⟩

end FilterPage
